import Mathlib

set_option maxRecDepth 40000

/-!
Verification development for `burrito-cloud-exp` (src/src/main.rs), a
single-file Rust orchestrator that provisions one remote node per config
entry (AWS / Azure / bare-metal), installs dependencies with a bounded
retry loop, copies artifacts, runs a remote experiment script, and fetches
a deterministic grid of result files.

The embedding below is a shallow one: the effectful Rust code is modelled
as pure Lean functions from oracles (outcomes of the remote operations:
spawn, connect, shell-command status, sftp-file presence, termination) to
a trace of observable events plus an `Except` result, mirroring the
control flow of `main.rs` statement by statement.
-/

namespace Burrito

/-! ### Result-file grid (`do_exp`, main.rs lines 215-246) -/

/-- Inter-request spacing values (`let inter_req_times = [75];`, line 216;
the larger list on line 215 is commented out in the source). -/
def inter_req_times : List Nat := [75]

/-- Receiver counts (`let num_receivers = [1, 2, 5, 10];`, line 217). -/
def num_receivers : List Nat := [1, 2, 5, 10]

/-- Group counts for the ordered family (`let num_groups = [0, 1, 2, 5, 10];`, line 218). -/
def num_groups : List Nat := [0, 1, 2, 5, 10]

/-- Batch sizes (`let batch_sizes = [1, 5, 10];`, line 219). -/
def batch_sizes : List Nat := [1, 5, 10]

/-- Batch strategies (`let batch_types = ["loop", "opt"];`, line 220). -/
def batch_types : List String := ["loop", "opt"]

/-- Implementation kinds (`let impls = ["client", "service"];`, line 221). -/
def impls : List String := ["client", "service"]

/-- Best-effort family filename,
`format!("exp-{}-be-{}ms-{}rcvrs-{}batch-{}-{}.data", prov, inter_req, rcvrs, batch_size, batch_type, imp)`
(main.rs lines 229-232). -/
def beName (prov : String) (inter_req rcvrs batch_size : Nat)
    (batch_type imp : String) : String :=
  "exp-" ++ prov ++ "-be-" ++ toString inter_req ++ "ms-" ++ toString rcvrs ++
    "rcvrs-" ++ toString batch_size ++ "batch-" ++ batch_type ++ "-" ++ imp ++ ".data"

/-- Ordered family filename,
`format!("exp-{}-ord:{}g-{}ms-{}rcvrs-{}batch-{}-{}.data", prov, grps, inter_req, rcvrs, batch_size, batch_type, imp)`
(main.rs lines 237-240). -/
def ordName (prov : String) (grps inter_req rcvrs batch_size : Nat)
    (batch_type imp : String) : String :=
  "exp-" ++ prov ++ "-ord:" ++ toString grps ++ "g-" ++ toString inter_req ++ "ms-" ++
    toString rcvrs ++ "rcvrs-" ++ toString batch_size ++ "batch-" ++ batch_type ++
    "-" ++ imp ++ ".data"

/-- Candidate result filenames built by the nested `for` loops of `do_exp`
(main.rs lines 223-246), in push order: for each inter-request time, batch
size, batch type and receiver count, first the two best-effort names, then
the ordered names for every group count and implementation. -/
def fnames (prov : String) : List String :=
  inter_req_times.flatMap fun inter_req =>
    batch_sizes.flatMap fun batch_size =>
      batch_types.flatMap fun batch_type =>
        num_receivers.flatMap fun rcvrs =>
          (impls.map fun imp => beName prov inter_req rcvrs batch_size batch_type imp)
            ++ num_groups.flatMap fun grps =>
                impls.map fun imp =>
                  ordName prov grps inter_req rcvrs batch_size batch_type imp

/-! ### Retrying installer (`apt_install` / `install_deps`, main.rs lines 328-370)

Each remote shell step is modelled by an oracle giving the exit status of
that step on a given attempt number (attempts are numbered from 1, matching
the `count` variable). A `false` status is a non-zero exit. Transport-level
failures of `.status()` surface the same way for the claims at hand (both
make the `async` block return `Err`), so the oracle covers them too. -/

/-- One iteration of the `async` block body inside `apt_install`
(main.rs lines 343-355): run `sudo add-apt-repository -y ppa:redislabs/redis`,
ensure success, then run the `apt update and install plus redis-server stop`
compound command, ensure success. -/
def aptAttempt (repo_status apt_status : Nat → Bool) (k : Nat) : Except String Unit :=
  if repo_status k then
    if apt_status k then .ok ()
    else .error "apt install failed"
  else .error "redis apt-add-repository failed"

/-- The `loop` of `apt_install` (main.rs lines 341-369): increment `count`,
run the attempt; on success return; on failure warn, and if `count > 15`
return the failed result, otherwise sleep 100ms and loop again.

The recursion is structural on `fuel`; `apt_install` supplies `fuel = 16`,
and since `count` starts at 0 and the loop returns as soon as
`count + 1 > 15`, the `fuel = 0` fallback (which returns exactly what the
`count + 1 > 15` branch would) is never reached.  Returns
(result, attempts made, total milliseconds slept). -/
def aptLoop (repo_status apt_status : Nat → Bool) :
    Nat → Nat → Except String Unit × Nat × Nat
  | fuel, count =>
    let count1 := count + 1
    match aptAttempt repo_status apt_status count1 with
    | .ok () => (.ok (), count1, 0)
    | .error e =>
      if count1 > 15 then (.error e, count1, 0)
      else
        match fuel with
        | 0 => (.error e, count1, 0)
        | fuel1 + 1 =>
          let p := aptLoop repo_status apt_status fuel1 count1
          (p.1, p.2.1, p.2.2 + 100)

/-- Model of `apt_install` (main.rs lines 339-370): `let mut count = 0; loop { ... }`. -/
def apt_install (repo_status apt_status : Nat → Bool) :
    Except String Unit × Nat × Nat :=
  aptLoop repo_status apt_status 16 0

/-- Model of `install_deps` (main.rs lines 328-337): run `apt_install` (propagating its
error with `?`), then run `sudo pip3 install agenda` once and ensure its exit
status is success. `pip_status k` is the exit status of the k-th invocation of
the pip command; the code invokes it exactly once, so only `pip_status 1` is
consulted. Returns (result, apt attempts, ms slept, pip invocations). -/
def install_deps (repo_status apt_status pip_status : Nat → Bool) :
    Except String Unit × Nat × Nat × Nat :=
  let a := apt_install repo_status apt_status
  match a.1 with
  | .error e => (.error e, a.2.1, a.2.2, 0)
  | .ok () =>
    if pip_status 1 then (.ok (), a.2.1, a.2.2, 1)
    else (.error "pip install", a.2.1, a.2.2, 1)

/-! ### Observable events of the orchestrator -/

/-- Observable effects of one `Node::run` / `main` execution, in program
order. Logging via `info!`/`debug!` is omitted; `warn!` calls that the spec
talks about are kept. -/
inductive Ev
  /-- Event for `launcher.spawn(vec![(MACHINE_NAME.to_owned(), m)], timeout)` with the
  machine name and a tag naming which launcher was used. -/
  | spawn (machine : String) (provider : String)
  /-- Event for `launcher.terminate_all()`. -/
  | terminateAll (provider : String)
  /-- Event for `launcher.connect_all()`. -/
  | connectAll
  /-- Event for `ssh.command("python3").arg(script).arg(bench).arg(prov)` + `.output()`. -/
  | runScript (script bench prov : String)
  /-- Event for `warn!("script failed")`. -/
  | warnScriptFailed
  /-- Event for `println!("{}", String::from_utf8(out.stderr).unwrap())`. -/
  | printOut (s : String)
  /-- Event for `tokio::fs::write(name, contents)` / `tokio::fs::File::create` + copy. -/
  | writeLocalFile (name : String) (contents : String)
  /-- Event for `warn!(?err, ?fname, "file error")` on a failed `sftp.read_from`. -/
  | warnFileError (fname : String)
  /-- a successful `sftp.read_from(fname)` streamed into a local file. -/
  | fetchFile (fname : String)
  /-- Event for `wait_for_continue()`. -/
  | waitForContinue
  deriving DecidableEq, Repr

/-! ### `do_exp` (main.rs lines 193-270) -/

/-- The result-collection `for` loop of `do_exp` (main.rs lines 251-264):
for each candidate name, try `sftp.read_from`; on error emit the
file-error warning and move on; on success stream the remote file to a
local file of the same name and count it in `gotten`. `present f` tells
whether `read_from f` succeeds; `content f` is the remote file's bytes.
Returns (events, gotten). -/
def collectFiles (present : String → Bool) (content : String → String) :
    List String → List Ev × Nat
  | [] => ([], 0)
  | f :: rest =>
    let p := collectFiles present content rest
    if present f then (Ev.fetchFile f :: Ev.writeLocalFile f (content f) :: p.1, p.2 + 1)
    else (Ev.warnFileError f :: p.1, p.2)

/-- Model of `do_exp` (main.rs lines 193-270). `output_res` is the outcome of
`cmd.output()`: a transport error aborts with `?`; otherwise the triple is
(exit-status success flag, stdout, stderr). `present`/`content` describe the
remote files for the collection loop. Local filesystem writes are modelled
as always succeeding (the claims quantify over the remote state only).
Returns (events, result, considered, gotten). -/
def do_exp (present : String → Bool) (content : String → String)
    (output_res : Except String (Bool × String × String))
    (script_remote bench_remote prov : String) :
    List Ev × Except String Unit × Nat × Nat :=
  let runEv := Ev.runScript script_remote ("./" ++ bench_remote) prov
  match output_res with
  | .error e => ([runEv], .error e, 0, 0)
  | .ok (status, stdout, stderr) =>
    let warnTr := if status then [] else [Ev.warnScriptFailed, Ev.printOut stderr]
    let logEv := Ev.writeLocalFile (prov ++ ".log") stdout
    let names := fnames prov
    let c := collectFiles present content names
    (runEv :: warnTr ++ logEv :: c.1 ++ [Ev.waitForContinue], .ok (), names.length, c.2)

/-! ### `Node::run` (main.rs lines 44-191) -/

/-- The `Node` config enum (main.rs lines 37-42). -/
inductive Node
  | Aws (region : String)
  | Azure (region : String)
  | Baremetal (ip : String) (user : String)
  deriving DecidableEq, Repr

/-- Constant `MACHINE_NAME: &str = "burrito-test-machine"` (main.rs line 52). -/
def MACHINE_NAME : String := "burrito-test-machine"

/-- Model of `Path::new(p).file_name()`: the final component of the path (modulo the
`None` cases of `file_name`, which the source `.unwrap()`s anyway). -/
def fileName (p : String) : String := (p.splitOn "/").getLastD ""

/-- Outcomes of the remote/provider operations performed while running one
node. `none` means success for the `Option String` fields; `some e` is the
error that the corresponding `?` would propagate. The setup hook
(`install_deps`, `write_file`, chmod) runs inside the provider's `spawn`,
so its failure is part of `spawnRes`. -/
structure Oracle where
  /-- Outcome of `ubuntu_ami::get_latest(...)` (Aws only, main.rs lines 60-68). -/
  amiRes : Option String
  /-- Outcome of `region.clone().parse()?` (Aws line 70 / Azure line 116). -/
  parseRes : Option String
  /-- Outcome of `baremetal::Setup::new((ip, 22), Some(user))?` (main.rs line 158). -/
  setupNewRes : Option String
  /-- Outcome of `launcher.spawn(...)` including the setup hook. -/
  spawnRes : Option String
  /-- Outcome of `launcher.connect_all()`. -/
  connectRes : Option String
  /-- Outcome of `cmd.output()` in `do_exp`: transport error, or (status, stdout, stderr). -/
  outputRes : Except String (Bool × String × String)
  /-- whether `sftp.read_from fname` succeeds. -/
  present : String → Bool
  /-- remote file contents for successful reads. -/
  content : String → String
  /-- Outcome of `launcher.terminate_all()` (cloud arms only). -/
  termRes : Option String

/-- Model of `with_launcher` (main.rs lines 25-35): `connect_all()?`, look up
`machine_name` (assumed present on successful connect, as the source
`.unwrap()`s it), then `do_exp`. -/
def with_launcher (o : Oracle) (script_remote bench_remote prov : String) :
    List Ev × Except String Unit :=
  match o.connectRes with
  | some e => ([Ev.connectAll], .error e)
  | none =>
    let d := do_exp o.present o.content o.outputRes script_remote bench_remote prov
    (Ev.connectAll :: d.1, d.2.1)

/-- The shared shape of the `Node::Aws` and `Node::Azure` arms
(main.rs lines 87-109 and 134-151): spawn; if spawn fails, call
`terminate_all` and propagate (`?` on the terminate first, then
`return Err(e)`); if spawn succeeds, run `with_launcher`, then call
`terminate_all` (`?`), and return the `with_launcher` result. -/
def runCloud (o : Oracle) (provider script_remote bench_remote : String) :
    List Ev × Except String Unit :=
  match o.spawnRes with
  | some e =>
    ([Ev.spawn MACHINE_NAME provider, Ev.terminateAll provider],
      match o.termRes with
      | some te => .error te
      | none => .error e)
  | none =>
    let w := with_launcher o script_remote bench_remote provider
    (Ev.spawn MACHINE_NAME provider :: w.1 ++ [Ev.terminateAll provider],
      match o.termRes with
      | some te => .error te
      | none => w.2)

/-- Model of `Node::run` (main.rs lines 44-191). Remote basenames are derived from
the local paths' final components (lines 47-48). The Aws arm fetches the
AMI, then parses the region (both before any spawn); the Azure arm parses
the region; the Baremetal arm builds the `Setup` (fallible), spawns with
`?` (no terminate on failure: "termination doesn't matter here"),
connects, and runs `do_exp` with provider tag `"gcp"` (line 185), never
calling `terminate_all`. -/
def nodeRun (n : Node) (o : Oracle) (bench_bin script : String) :
    List Ev × Except String Unit :=
  let bench_remote := fileName bench_bin
  let script_remote := fileName script
  match n with
  | .Aws _region =>
    match o.amiRes with
    | some e => ([], .error e)
    | none =>
      match o.parseRes with
      | some e => ([], .error e)
      | none => runCloud o "aws" script_remote bench_remote
  | .Azure _region =>
    match o.parseRes with
    | some e => ([], .error e)
    | none => runCloud o "azure" script_remote bench_remote
  | .Baremetal _ip _user =>
    match o.setupNewRes with
    | some e => ([], .error e)
    | none =>
      match o.spawnRes with
      | some e => ([Ev.spawn MACHINE_NAME "baremetal"], .error e)
      | none =>
        match o.connectRes with
        | some e => ([Ev.spawn MACHINE_NAME "baremetal", Ev.connectAll], .error e)
        | none =>
          let d := do_exp o.present o.content o.outputRes script_remote bench_remote "gcp"
          (Ev.spawn MACHINE_NAME "baremetal" :: Ev.connectAll :: d.1, d.2.1)

/-! ### `main` (main.rs lines 272-304) -/

/-- The `for n in nodes { n.run(...).await?; }` loop (main.rs lines
299-301): run each node in order with its own oracle (indexed by position),
stopping at and propagating the first error. -/
def runNodes (os : Nat → Oracle) (bench_bin script : String) :
    List Node → Nat → List Ev × Except String Unit
  | [], _ => ([], .ok ())
  | n :: rest, i =>
    let p := nodeRun n (os i) bench_bin script
    match p.2 with
    | .error e => (p.1, .error e)
    | .ok () =>
      let q := runNodes os bench_bin script rest (i + 1)
      (p.1 ++ q.1, q.2)

/-- Model of `main` (main.rs lines 272-304) after CLI parsing: `ensure!` that the
bench binary exists, `ensure!` that the script exists, open the config
file, parse it as a JSON list of `Node`, then run every node in order.
`cfg_parse = none` models both a failed `File::open` and a failed
`serde_json::from_reader` collapsing to their respective error (split by
`cfg_open`). An `Except.error` return is a non-zero process exit. -/
def mainRun (bench_exists script_exists cfg_open : Bool)
    (cfg_parse : Option (List Node)) (os : Nat → Oracle)
    (bench_bin script : String) : List Ev × Except String Unit :=
  if !bench_exists then ([], .error "Bench binary not found")
  else if !script_exists then ([], .error "Script path not found")
  else if !cfg_open then ([], .error "Open cfg file")
  else
    match cfg_parse with
    | none => ([], .error "parse cfg file json")
    | some nodes => runNodes os bench_bin script nodes 0

/-! ### Spec-side grid (for the refinement comparison of claim C5)

The definitions below follow the SPEC's words, not the source: the spec
describes the collector as enumerating "the full Cartesian product of:
inter-request spacing values, batch sizes, batch strategies, receiver
counts, implementation kinds {client, service}, and — for the ordered
family — group counts", with the two filename templates
`exp-<provider>-be-<inter>ms-<rcvrs>rcvrs-<batch>batch-<type>-<impl>.data`
and
`exp-<provider>-ord:<groups>g-<inter>ms-<rcvrs>rcvrs-<batch>batch-<type>-<impl>.data`.
The batch-strategy axis is a parameter so that the claim's axis
`{loop, optimized}` and the source's `{loop, opt}` can both be formed. -/

/-- Best-effort family template, following the spec's words. -/
def specBeName (provider : String) (inter rcvrs batch : Nat)
    (ty impl : String) : String :=
  "exp-" ++ provider ++ "-be-" ++ toString inter ++ "ms-" ++ toString rcvrs ++
    "rcvrs-" ++ toString batch ++ "batch-" ++ ty ++ "-" ++ impl ++ ".data"

/-- Ordered family template, following the spec's words. -/
def specOrdName (provider : String) (groups inter rcvrs batch : Nat)
    (ty impl : String) : String :=
  "exp-" ++ provider ++ "-ord:" ++ toString groups ++ "g-" ++ toString inter ++ "ms-" ++
    toString rcvrs ++ "rcvrs-" ++ toString batch ++ "batch-" ++ ty ++
    "-" ++ impl ++ ".data"

/-- The full Cartesian product of the spec's parameter axes, producing both
filename families per combination, with the batch-strategy axis supplied by
the caller. -/
def specGrid (batchStrategies : List String) (provider : String) : List String :=
  inter_req_times.flatMap fun inter =>
    batch_sizes.flatMap fun batch =>
      batchStrategies.flatMap fun ty =>
        num_receivers.flatMap fun rcvrs =>
          (impls.map fun impl => specBeName provider inter rcvrs batch ty impl)
            ++ num_groups.flatMap fun groups =>
                impls.map fun impl => specOrdName provider groups inter rcvrs batch ty impl

/-- Recognizer for `terminate_all` events. -/
def isTerm : Ev → Bool
  | .terminateAll _ => true
  | _ => false

/-- Number of `terminate_all` invocations recorded in a trace. -/
def countTerm (tr : List Ev) : Nat := tr.countP isTerm

/-! ## Helper lemmas about traces -/

theorem spawn_not_mem_collectFiles (present : String → Bool) (content : String → String)
    (L : List String) (m p : String) :
    Ev.spawn m p ∉ (collectFiles present content L).1 := by
  induction L with
  | nil => simp [collectFiles]
  | cons f rest ih => by_cases h : present f <;> simp [collectFiles, h, ih]

theorem spawn_not_mem_do_exp (present : String → Bool) (content : String → String)
    (output_res : Except String (Bool × String × String)) (s b prov m p : String) :
    Ev.spawn m p ∉ (do_exp present content output_res s b prov).1 := by
  cases output_res with
  | error e => simp [do_exp]
  | ok t =>
    obtain ⟨st, so, se⟩ := t
    cases st <;> simp [do_exp, spawn_not_mem_collectFiles]

theorem isTerm_false_collectFiles (present : String → Bool) (content : String → String)
    (L : List String) : ∀ ev ∈ (collectFiles present content L).1, isTerm ev = false := by
  induction L with
  | nil => intro ev hev; simp [collectFiles] at hev
  | cons f rest ih =>
    intro ev hev
    cases h : present f <;> simp only [collectFiles, h] at hev
    · rcases (by simpa using hev) with rfl | hm
      · rfl
      · exact ih ev hm
    · rcases (by simpa using hev) with rfl | rfl | hm
      · rfl
      · rfl
      · exact ih ev hm

theorem isTerm_false_do_exp (present : String → Bool) (content : String → String)
    (output_res : Except String (Bool × String × String)) (s b prov : String) :
    ∀ ev ∈ (do_exp present content output_res s b prov).1, isTerm ev = false := by
  intro ev hev
  cases output_res with
  | error e =>
    simp [do_exp] at hev
    subst hev; rfl
  | ok t =>
    obtain ⟨st, so, se⟩ := t
    cases st <;> simp only [do_exp] at hev
    · rcases (by simpa using hev) with rfl | rfl | rfl | rfl | hm | rfl
      · rfl
      · rfl
      · rfl
      · rfl
      · exact isTerm_false_collectFiles present content (fnames prov) ev hm
      · rfl
    · rcases (by simpa using hev) with rfl | rfl | hm | rfl
      · rfl
      · rfl
      · exact isTerm_false_collectFiles present content (fnames prov) ev hm
      · rfl

theorem countTerm_do_exp (present : String → Bool) (content : String → String)
    (output_res : Except String (Bool × String × String)) (s b prov : String) :
    countTerm (do_exp present content output_res s b prov).1 = 0 := by
  rw [countTerm, List.countP_eq_zero]
  intro ev hev
  simp [isTerm_false_do_exp present content output_res s b prov ev hev]

theorem countTerm_with_launcher (o : Oracle) (s b prov : String) :
    countTerm (with_launcher o s b prov).1 = 0 := by
  cases hc : o.connectRes with
  | some e => simp [with_launcher, hc, countTerm, isTerm]
  | none =>
    have hd := countTerm_do_exp o.present o.content o.outputRes s b prov
    rw [countTerm, List.countP_eq_zero] at hd ⊢
    intro ev hev
    simp only [with_launcher, hc] at hev
    rcases (by simpa using hev) with rfl | hm
    · simp [isTerm]
    · exact hd ev hm

theorem spawn_not_mem_with_launcher (o : Oracle) (s b prov m p : String) :
    Ev.spawn m p ∉ (with_launcher o s b prov).1 := by
  cases hc : o.connectRes with
  | some e => simp [with_launcher, hc]
  | none => simp [with_launcher, hc, spawn_not_mem_do_exp]

theorem spawn_mem_runCloud (o : Oracle) (prov s b m p : String)
    (h : Ev.spawn m p ∈ (runCloud o prov s b).1) : m = MACHINE_NAME := by
  cases hs : o.spawnRes with
  | some e =>
    simp [runCloud, hs] at h
    exact h.1
  | none =>
    simp [runCloud, hs, spawn_not_mem_with_launcher] at h
    exact h.1

theorem spawn_machine_nodeRun (n : Node) (o : Oracle) (b s m p : String)
    (h : Ev.spawn m p ∈ (nodeRun n o b s).1) : m = MACHINE_NAME := by
  cases n with
  | Aws r =>
    cases ha : o.amiRes <;> simp only [nodeRun, ha] at h
    · cases hp : o.parseRes <;> simp only [hp] at h
      · exact spawn_mem_runCloud o "aws" _ _ m p h
      · simp at h
    · simp at h
  | Azure r =>
    cases hp : o.parseRes <;> simp only [nodeRun, hp] at h
    · exact spawn_mem_runCloud o "azure" _ _ m p h
    · simp at h
  | Baremetal ip user =>
    cases hn : o.setupNewRes <;> simp only [nodeRun, hn] at h
    · cases hs : o.spawnRes <;> simp only [hs] at h
      · cases hc : o.connectRes <;> simp only [hc] at h
        · rcases (by simpa [spawn_not_mem_do_exp] using h) with ⟨rfl, rfl⟩
          rfl
        · rcases (by simpa using h) with ⟨rfl, rfl⟩
          rfl
      · rcases (by simpa using h) with ⟨rfl, rfl⟩
        rfl
    · simp at h

/-! ## Installer lemmas -/

theorem aptLoop_eq (rs as : Nat → Bool) (fuel count : Nat) :
    aptLoop rs as fuel count =
      match aptAttempt rs as (count + 1) with
      | .ok () => (.ok (), count + 1, 0)
      | .error e =>
        if count + 1 > 15 then (.error e, count + 1, 0)
        else
          match fuel with
          | 0 => (.error e, count + 1, 0)
          | fuel1 + 1 =>
            ((aptLoop rs as fuel1 (count + 1)).1, (aptLoop rs as fuel1 (count + 1)).2.1,
              (aptLoop rs as fuel1 (count + 1)).2.2 + 100) := by
  rw [aptLoop]

theorem aptLoop_success (rs as : Nat → Bool) (m : Nat) (hm : m ≤ 15)
    (hfail : ∀ j, 1 ≤ j → j ≤ m → aptAttempt rs as j ≠ .ok ())
    (hsucc : aptAttempt rs as (m + 1) = .ok ()) :
    ∀ fuel count, count ≤ m → m < count + fuel →
      aptLoop rs as fuel count = (.ok (), m + 1, 100 * (m - count)) := by
  intro fuel
  induction fuel with
  | zero => intro count h1 h2; omega
  | succ f ih =>
    intro count h1 h2
    rw [aptLoop_eq]
    rcases Nat.lt_or_ge count m with hlt | hge
    · have hne : aptAttempt rs as (count + 1) ≠ .ok () :=
        hfail (count + 1) (by omega) (by omega)
      cases hA : aptAttempt rs as (count + 1) with
      | ok u => cases u; exact absurd hA hne
      | error e =>
        have hgt : ¬ count + 1 > 15 := by omega
        dsimp only
        rw [if_neg hgt, ih (count + 1) (by omega) (by omega)]
        simp only [Prod.mk.injEq, true_and]
        omega
    · have hceq : count = m := Nat.le_antisymm h1 hge
      subst hceq
      rw [hsucc]
      simp

theorem aptLoop_allfail (rs as : Nat → Bool) (e : String)
    (hfail : ∀ j, 1 ≤ j → j ≤ 15 → aptAttempt rs as j ≠ .ok ())
    (h16 : aptAttempt rs as 16 = .error e) :
    ∀ fuel count, count ≤ 15 → 15 < count + fuel →
      aptLoop rs as fuel count = (.error e, 16, 100 * (15 - count)) := by
  intro fuel
  induction fuel with
  | zero => intro count h1 h2; omega
  | succ f ih =>
    intro count h1 h2
    rw [aptLoop_eq]
    rcases Nat.lt_or_ge count 15 with hlt | hge
    · have hne : aptAttempt rs as (count + 1) ≠ .ok () :=
        hfail (count + 1) (by omega) (by omega)
      cases hA : aptAttempt rs as (count + 1) with
      | ok u => cases u; exact absurd hA hne
      | error e1 =>
        have hgt : ¬ count + 1 > 15 := by omega
        dsimp only
        rw [if_neg hgt, ih (count + 1) (by omega) (by omega)]
        simp only [Prod.mk.injEq, true_and]
        omega
    · have hceq : count = 15 := Nat.le_antisymm h1 hge
      subst hceq
      rw [h16]
      simp

/-! ## Claims -/

/-- Claim C10: every invocation of the result collector considers exactly 288
candidate filenames: 1 inter-request spacing × 3 batch sizes × 2 batch
strategies × 4 receiver counts × (2 best-effort implementation kinds +
5 group counts × 2 implementation kinds). -/
theorem grid_considered_288 (prov : String) (present : String → Bool)
    (content : String → String) (status : Bool) (stdout stderr s b : String) :
    (do_exp present content (.ok (status, stdout, stderr)) s b prov).2.2.1 = 288 := rfl

/-- Claim C4 (counterexample): the machine identifier constant of the source
(`MACHINE_NAME`, main.rs line 52) is not the string "primary-node". -/
theorem machine_name_not_primary_node : MACHINE_NAME ≠ "primary-node" := by decide

/-- Claim C4 (amended): the machine identifier is the constant string
"burrito-test-machine", the same for every node descriptor and every run:
every spawn event of any execution carries exactly this name. -/
theorem machine_name_constant :
    MACHINE_NAME = "burrito-test-machine" ∧
    ∀ (n : Node) (o : Oracle) (b s m p : String),
      Ev.spawn m p ∈ (nodeRun n o b s).1 → m = "burrito-test-machine" :=
  ⟨rfl, fun n o b s m p h => spawn_machine_nodeRun n o b s m p h⟩

/-- A concrete oracle in which every remote operation succeeds, the script
exits 0, and no result file is present remotely. -/
def allOkOracle : Oracle :=
  ⟨none, none, none, none, none, .ok (true, "", ""), fun _ => false, fun _ => "", none⟩

theorem machine_name_constant_witness : "burrito-test-machine" = "burrito-test-machine" :=
  machine_name_constant.2 (Node.Baremetal "10.0.0.1" "ubuntu") allOkOracle
    "target/bench" "scripts/exp.py" "burrito-test-machine" "baremetal" (by
      simp [nodeRun, allOkOracle, MACHINE_NAME])

/-- Claim C5 (counterexample): the claim requires every candidate filename's
batch-strategy component to come from {loop, optimized}, but the grid the
code generates contains a name whose batch-strategy component is "opt",
which is in neither family when the strategy axis is {loop, optimized}. -/
theorem batch_type_opt_counterexample :
    "exp-aws-be-75ms-1rcvrs-1batch-opt-client.data" ∈ fnames "aws" ∧
    "exp-aws-be-75ms-1rcvrs-1batch-opt-client.data" ∉ specGrid ["loop", "optimized"] "aws" :=
  ⟨by decide, by decide⟩

/-- Claim C5 (amended): the generated candidate filenames are exactly the
Cartesian product of the spec's parameter axes rendered through the spec's
two filename templates, with the batch-strategy component drawn from
{loop, opt} (the source's `batch_types`), not {loop, optimized}. -/
theorem fnames_eq_specGrid_opt (prov : String) :
    fnames prov = specGrid ["loop", "opt"] prov := rfl

/-- Claim C2: the installer retries the apt command sequence as a unit with a
100ms delay between attempts. If the sequence fails on attempts 1..m
(m ≤ 15) and succeeds on attempt m+1 (and the single pip step succeeds),
`install_deps` succeeds after exactly m+1 attempts and m 100ms sleeps; if
the sequence fails on every one of attempts 1..16 (more than 15 consecutive
failures), `install_deps` returns the last observed error, makes exactly 16
attempts (no further ones, and no pip invocation), having slept 15 times. -/
theorem install_retry_bound :
    (∀ rs as ps m, m ≤ 15 →
      (∀ j, 1 ≤ j → j ≤ m → aptAttempt rs as j ≠ .ok ()) →
      aptAttempt rs as (m + 1) = .ok () → ps 1 = true →
      install_deps rs as ps = (.ok (), m + 1, 100 * m, 1)) ∧
    (∀ rs as ps e, (∀ j, 1 ≤ j → j ≤ 15 → aptAttempt rs as j ≠ .ok ()) →
      aptAttempt rs as 16 = .error e →
      install_deps rs as ps = (.error e, 16, 100 * 15, 0)) := by
  constructor
  · intro rs as ps m hm hfail hsucc hp
    have h := aptLoop_success rs as m hm hfail hsucc 16 0 (by omega) (by omega)
    simp [install_deps, apt_install, h, hp]
  · intro rs as ps e hfail h16
    have h := aptLoop_allfail rs as e hfail h16 16 0 (by omega) (by omega)
    simp [install_deps, apt_install, h]

theorem install_retry_bound_witness :
    install_deps (fun k => decide (4 ≤ k)) (fun _ => true) (fun _ => true) =
      (.ok (), 4, 300, 1) ∧
    install_deps (fun _ => false) (fun _ => true) (fun _ => true) =
      (.error "redis apt-add-repository failed", 16, 1500, 0) := by
  constructor
  · refine install_retry_bound.1 (fun k => decide (4 ≤ k)) (fun _ => true)
      (fun _ => true) 3 (by omega) ?_ rfl rfl
    intro j h1 h2
    have h4 : ¬ (4 ≤ j) := by omega
    simp [aptAttempt, h4]
  · refine install_retry_bound.2 (fun _ => false) (fun _ => true)
      (fun _ => true) "redis apt-add-repository failed" ?_ rfl
    intro j h1 h2
    simp [aptAttempt]

/-- Claim C3 (counterexample): every apt step succeeds, while the pip step
exits non-zero on its first invocation only (invocation 2 would succeed, so
the failure is transient and a retry of the whole sequence would absorb
it); `install_deps` nevertheless fails immediately with the pip error after
exactly one pip invocation, so a non-zero exit of the language-runtime
install step does not trigger a retry of the whole sequence. -/
theorem pip_not_retried :
    install_deps (fun _ => true) (fun _ => true) (fun k => decide (k ≠ 1)) =
      (.error "pip install", 1, 0, 1) := rfl

/-- Claim C3 (amended): the retry-on-failure discipline covers the
package-repository registration and the package-install + service-stop
steps as one unit (a non-zero exit of either triggers a retry of that
two-step sequence, up to the bound), but the language-runtime (pip) install
step is outside the loop: it runs at most once, only after the apt sequence
has succeeded, and its non-zero exit fails `install_deps` immediately
rather than triggering a retry. -/
theorem retry_covers_apt_only :
    (∀ rs as m, m ≤ 15 →
      (∀ j, 1 ≤ j → j ≤ m → aptAttempt rs as j ≠ .ok ()) →
      aptAttempt rs as (m + 1) = .ok () →
      (apt_install rs as).1 = .ok () ∧ (apt_install rs as).2.1 = m + 1) ∧
    (∀ rs as ps, (install_deps rs as ps).2.2.2 ≤ 1) ∧
    (∀ rs as ps, (apt_install rs as).1 = .ok () → ps 1 = false →
      (install_deps rs as ps).1 = .error "pip install" ∧
        (install_deps rs as ps).2.2.2 = 1) := by
  refine ⟨?_, ?_, ?_⟩
  · intro rs as m hm hfail hsucc
    have h := aptLoop_success rs as m hm hfail hsucc 16 0 (by omega) (by omega)
    simp [apt_install, h]
  · intro rs as ps
    cases h : (apt_install rs as).1 with
    | error e => simp [install_deps, h]
    | ok u =>
      cases u
      cases hp : ps 1 <;> simp [install_deps, h, hp]
  · intro rs as ps hok hp
    simp [install_deps, hok, hp]

theorem collectFiles_gotten_le (present : String → Bool) (content : String → String) :
    ∀ L : List String, (collectFiles present content L).2 ≤ L.length := by
  intro L
  induction L with
  | nil => simp [collectFiles]
  | cons f rest ih =>
    cases h : present f <;> simp [collectFiles, h] <;> omega

theorem collectFiles_warn_mem (present : String → Bool) (content : String → String) :
    ∀ L f, f ∈ L → present f = false →
      Ev.warnFileError f ∈ (collectFiles present content L).1 := by
  intro L
  induction L with
  | nil => intro f hf hp; simp at hf
  | cons g rest ih =>
    intro f hf hp
    rcases List.mem_cons.mp hf with rfl | hm
    · simp [collectFiles, hp]
    · have hrec := ih f hm hp
      cases h : present g <;> simp [collectFiles, h] <;> tauto

/-- Claim C6: for every remote-presence oracle over the candidate result
files (any subset present, including none), collection completes without
aborting (`do_exp` still returns `Ok`), the number of files fetched is at
most the number of candidate names considered, and each candidate whose
remote open fails yields a file-error warning rather than stopping the
remaining names. -/
theorem collection_never_aborts (present : String → Bool) (content : String → String)
    (status : Bool) (stdout stderr s b prov : String) :
    (do_exp present content (.ok (status, stdout, stderr)) s b prov).2.1 = .ok () ∧
    (do_exp present content (.ok (status, stdout, stderr)) s b prov).2.2.2 ≤
      (do_exp present content (.ok (status, stdout, stderr)) s b prov).2.2.1 ∧
    (∀ f, f ∈ fnames prov → present f = false →
      Ev.warnFileError f ∈
        (do_exp present content (.ok (status, stdout, stderr)) s b prov).1) := by
  refine ⟨rfl, ?_, ?_⟩
  · exact collectFiles_gotten_le present content (fnames prov)
  · intro f hf hp
    have hmem := collectFiles_warn_mem present content (fnames prov) f hf hp
    cases status <;> simp [do_exp] <;> tauto

theorem collection_never_aborts_witness :
    Ev.warnFileError "exp-aws-be-75ms-1rcvrs-1batch-loop-client.data" ∈
      (do_exp (fun _ => false) (fun _ => "") (.ok (true, "", "")) "exp.py" "bench" "aws").1 :=
  (collection_never_aborts (fun _ => false) (fun _ => "") true "" "" "exp.py" "bench" "aws").2.2
    "exp-aws-be-75ms-1rcvrs-1batch-loop-client.data" (by decide) rfl

/-- Claim C7: a non-zero exit status of the remote experiment script is not
fatal: `do_exp` still returns `Ok`; the failure is logged as a warning, the
captured stderr is printed to the operator, the captured stdout is
persisted to the local file `<provider_tag>.log`, and execution continues
into the result-collection loop (the trace ends with the whole collection
trace followed by the inspection pause). -/
theorem script_failure_nonfatal (present : String → Bool) (content : String → String)
    (stdout stderr s b prov : String) :
    (do_exp present content (.ok (false, stdout, stderr)) s b prov).2.1 = .ok () ∧
    Ev.warnScriptFailed ∈ (do_exp present content (.ok (false, stdout, stderr)) s b prov).1 ∧
    Ev.printOut stderr ∈ (do_exp present content (.ok (false, stdout, stderr)) s b prov).1 ∧
    Ev.writeLocalFile (prov ++ ".log") stdout ∈
      (do_exp present content (.ok (false, stdout, stderr)) s b prov).1 ∧
    ∃ pre, (do_exp present content (.ok (false, stdout, stderr)) s b prov).1 =
      pre ++ (collectFiles present content (fnames prov)).1 ++ [Ev.waitForContinue] := by
  refine ⟨rfl, by simp [do_exp], by simp [do_exp], by simp [do_exp], ?_⟩
  exact ⟨[Ev.runScript s ("./" ++ b) prov, Ev.warnScriptFailed, Ev.printOut stderr,
    Ev.writeLocalFile (prov ++ ".log") stdout], by simp [do_exp]⟩

/-- Claim C8: if the bench-bin path or the script path does not exist on
local disk, or the config file cannot be opened or parsed, the process
fails before any provisioning or remote side effect: the event trace is
empty (no node is run) and an error — a non-zero process exit — is
returned. -/
theorem preflight_failure_no_side_effects (be se co : Bool)
    (cp : Option (List Node)) (os : Nat → Oracle) (b s : String)
    (h : be = false ∨ se = false ∨ co = false ∨ cp = none) :
    (mainRun be se co cp os b s).1 = [] ∧
    ∃ e, (mainRun be se co cp os b s).2 = .error e := by
  rcases h with rfl | rfl | rfl | rfl
  · exact ⟨rfl, "Bench binary not found", rfl⟩
  · cases be
    · exact ⟨rfl, "Bench binary not found", rfl⟩
    · exact ⟨rfl, "Script path not found", rfl⟩
  · cases be
    · exact ⟨rfl, "Bench binary not found", rfl⟩
    · cases se
      · exact ⟨rfl, "Script path not found", rfl⟩
      · exact ⟨rfl, "Open cfg file", rfl⟩
  · cases be
    · exact ⟨rfl, "Bench binary not found", rfl⟩
    · cases se
      · exact ⟨rfl, "Script path not found", rfl⟩
      · cases co
        · exact ⟨rfl, "Open cfg file", rfl⟩
        · exact ⟨rfl, "parse cfg file json", rfl⟩

theorem preflight_failure_no_side_effects_witness :
    (mainRun false true true (some [Node.Aws "us-east-1"]) (fun _ => allOkOracle)
      "bench" "exp.py").1 = [] ∧
    ∃ e, (mainRun false true true (some [Node.Aws "us-east-1"]) (fun _ => allOkOracle)
      "bench" "exp.py").2 = .error e :=
  preflight_failure_no_side_effects false true true (some [Node.Aws "us-east-1"])
    (fun _ => allOkOracle) "bench" "exp.py" (Or.inl rfl)

theorem runCloud_terminate (o : Oracle) (prov s b : String) :
    countTerm (runCloud o prov s b).1 = 1 ∧
    (∃ pre, (runCloud o prov s b).1 = pre ++ [Ev.terminateAll prov] ∧ countTerm pre = 0) ∧
    (∀ e, o.spawnRes = some e → o.termRes = none → (runCloud o prov s b).2 = .error e) := by
  cases hs : o.spawnRes with
  | some e0 =>
    refine ⟨?_, ⟨[Ev.spawn MACHINE_NAME prov], ?_, ?_⟩, ?_⟩
    · simp [runCloud, hs, countTerm, isTerm, List.countP_cons]
    · simp [runCloud, hs]
    · simp [countTerm, isTerm, List.countP_cons]
    · intro e he ht
      injection he with h
      subst h
      simp [runCloud, hs, ht]
  | none =>
    have hw := countTerm_with_launcher o s b prov
    rw [countTerm] at hw
    refine ⟨?_, ⟨Ev.spawn MACHINE_NAME prov :: (with_launcher o s b prov).1, ?_, ?_⟩, ?_⟩
    · simp [runCloud, hs, countTerm, isTerm, List.countP_cons, List.countP_append, hw]
    · simp [runCloud, hs]
    · simp [countTerm, isTerm, List.countP_cons, hw]
    · intro e he
      simp at he

/-- Claim C1: for every cloud-backed node (Aws or Azure descriptor) and
every outcome of the remote operations, each launch attempt (the
pre-launch AMI lookup and region parse having succeeded) leads to exactly
one `terminate_all` invocation, and that invocation is the final action of
the node's run — after the experiment/collection phase when spawn
succeeded, and before the launch error is propagated when spawn failed: if
spawn fails and `terminate_all` itself succeeds, the returned error is the
launch error. -/
theorem cloud_terminate_exactly_once (n : Node) (o : Oracle) (b s r : String)
    (hn : n = Node.Aws r ∨ n = Node.Azure r)
    (hami : o.amiRes = none) (hparse : o.parseRes = none) :
    countTerm (nodeRun n o b s).1 = 1 ∧
    (∃ pre p, (nodeRun n o b s).1 = pre ++ [Ev.terminateAll p] ∧ countTerm pre = 0) ∧
    (∀ e, o.spawnRes = some e → o.termRes = none → (nodeRun n o b s).2 = .error e) := by
  rcases hn with rfl | rfl
  · have hr : nodeRun (Node.Aws r) o b s = runCloud o "aws" (fileName s) (fileName b) := by
      simp [nodeRun, hami, hparse]
    rw [hr]
    obtain ⟨h1, ⟨pre, hp1, hp2⟩, h3⟩ := runCloud_terminate o "aws" (fileName s) (fileName b)
    exact ⟨h1, ⟨pre, "aws", hp1, hp2⟩, h3⟩
  · have hr : nodeRun (Node.Azure r) o b s = runCloud o "azure" (fileName s) (fileName b) := by
      simp [nodeRun, hparse]
    rw [hr]
    obtain ⟨h1, ⟨pre, hp1, hp2⟩, h3⟩ := runCloud_terminate o "azure" (fileName s) (fileName b)
    exact ⟨h1, ⟨pre, "azure", hp1, hp2⟩, h3⟩

/-- A concrete oracle in which the provider's spawn fails (e.g. no spot
capacity) and every other operation succeeds. -/
def spawnFailOracle : Oracle :=
  ⟨none, none, none, some "spawn failed", none, .ok (true, "", ""),
    fun _ => false, fun _ => "", none⟩

theorem cloud_terminate_exactly_once_witness :
    countTerm (nodeRun (Node.Aws "us-east-1") spawnFailOracle "bench" "exp.py").1 = 1 ∧
    (∃ pre p, (nodeRun (Node.Aws "us-east-1") spawnFailOracle "bench" "exp.py").1 =
      pre ++ [Ev.terminateAll p] ∧ countTerm pre = 0) ∧
    (∀ e, spawnFailOracle.spawnRes = some e → spawnFailOracle.termRes = none →
      (nodeRun (Node.Aws "us-east-1") spawnFailOracle "bench" "exp.py").2 = .error e) :=
  cloud_terminate_exactly_once (Node.Aws "us-east-1") spawnFailOracle "bench" "exp.py"
    "us-east-1" (Or.inl rfl) rfl rfl

theorem retry_covers_apt_only_witness :
    ((apt_install (fun k => decide (2 ≤ k)) (fun _ => true)).1 = .ok () ∧
      (apt_install (fun k => decide (2 ≤ k)) (fun _ => true)).2.1 = 2) ∧
    (install_deps (fun _ => true) (fun _ => true) (fun _ => false)).2.2.2 ≤ 1 ∧
    ((install_deps (fun _ => true) (fun _ => true) (fun _ => false)).1 =
        .error "pip install" ∧
      (install_deps (fun _ => true) (fun _ => true) (fun _ => false)).2.2.2 = 1) := by
  refine ⟨?_, retry_covers_apt_only.2.1 (fun _ => true) (fun _ => true) (fun _ => false),
    retry_covers_apt_only.2.2 (fun _ => true) (fun _ => true) (fun _ => false) rfl rfl⟩
  refine retry_covers_apt_only.1 (fun k => decide (2 ≤ k)) (fun _ => true) 1 (by omega) ?_ rfl
  intro j h1 h2
  have : j = 1 := by omega
  subst this
  simp [aptAttempt]

/-- Claim C9: a Baremetal node passes the provider tag "gcp" to the
experiment runner (main.rs line 185): the remote script receives "gcp" as
its provider argument, the captured stdout is persisted to "gcp.log", and
every candidate result filename starts with "exp-gcp-". -/
theorem baremetal_prov_tag_gcp (ip user b s : String) (ami parse term : Option String)
    (status : Bool) (stdout stderr : String) (present : String → Bool)
    (content : String → String) :
    Ev.runScript (fileName s) ("./" ++ fileName b) "gcp" ∈
      (nodeRun (.Baremetal ip user)
        ⟨ami, parse, none, none, none, .ok (status, stdout, stderr), present, content, term⟩
        b s).1 ∧
    Ev.writeLocalFile "gcp.log" stdout ∈
      (nodeRun (.Baremetal ip user)
        ⟨ami, parse, none, none, none, .ok (status, stdout, stderr), present, content, term⟩
        b s).1 ∧
    ((fnames "gcp").all fun f => "exp-gcp-".data.isPrefixOf f.data) = true := by
  have hl : ("gcp" ++ ".log" : String) = "gcp.log" := rfl
  refine ⟨?_, ?_, by decide⟩ <;> cases status <;> simp [nodeRun, do_exp, hl]

end Burrito
